import Mathlib

/-!
Verification of the session-isolation and token-authentication layer of the
Gmail MCP server (TypeScript sources `index.ts` and the session-aware
transport module).

The embedding is shallow: the two global JavaScript `Map`s (`sessionStore`,
`tokenToSessionMap`), the session registry of `SessionAwareTransportManager`
and the per-request ambient context are modelled as explicit state threaded
through pure Lean functions.  Timestamps (`Date.now()`, `Date.getTime()`)
are natural numbers of milliseconds; age arithmetic is done in `Int` exactly
as JavaScript number subtraction behaves on these values.  Opaque runtime
objects (`OAuth2Client`, `gmail_v1.Gmail`) are modelled by numeric identities:
the layer under verification never inspects them, it only stores, compares
and routes them.
-/

namespace GmailMcp

/-!
### Association-list model of a JavaScript `Map`

A JS `Map` is modelled as an association list in insertion order with unique
keys.  `mget`, `mset`, `mdel` mirror `Map.get`, `Map.set`, `Map.delete`;
`mset` overwrites in place when the key is present and appends otherwise.
-/

def mget {α : Type} (m : List (String × α)) (k : String) : Option α :=
  (m.find? (fun p => p.1 == k)).map (fun p => p.2)

def mset {α : Type} : List (String × α) → String → α → List (String × α)
  | [], k, v => [(k, v)]
  | p :: m, k, v => if p.1 == k then (k, v) :: mset m k v else p :: mset m k v

def mdel {α : Type} : List (String × α) → String → List (String × α)
  | [], _ => []
  | p :: m, k => if p.1 == k then mdel m k else p :: mdel m k

theorem mget_nil {α : Type} (k : String) : mget ([] : List (String × α)) k = none := rfl

theorem mget_cons {α : Type} (p : String × α) (m : List (String × α)) (k : String) :
    mget (p :: m) k = if p.1 == k then some p.2 else mget m k := by
  by_cases h : p.1 == k
  · simp [mget, List.find?, h]
  · simp only [mget, List.find?]
    rw [if_neg h]
    simp [h]

theorem mget_mset_self {α : Type} (m : List (String × α)) (k : String) (v : α) :
    mget (mset m k v) k = some v := by
  induction m with
  | nil => simp [mset, mget_cons]
  | cons p m ih =>
    by_cases h : p.1 == k
    · simp [mset, h, mget_cons]
    · simp [mset, h, mget_cons, ih]

theorem mget_mset_ne {α : Type} (m : List (String × α)) (k k' : String) (v : α)
    (h : k' ≠ k) : mget (mset m k v) k' = mget m k' := by
  have hkk : ¬ ((k == k') = true) := by
    simp only [beq_iff_eq]
    exact fun hk => h hk.symm
  induction m with
  | nil =>
    simp only [mset]
    rw [mget_cons, if_neg hkk]
  | cons p m ih =>
    by_cases hp : (p.1 == k) = true
    · have hpk : p.1 = k := by simpa using hp
      simp only [mset, if_pos hp]
      rw [mget_cons, if_neg hkk, ih, mget_cons, if_neg (by rw [hpk]; exact hkk)]
    · simp only [mset, if_neg hp]
      rw [mget_cons, mget_cons, ih]

theorem mget_mdel_self {α : Type} (m : List (String × α)) (k : String) :
    mget (mdel m k) k = none := by
  induction m with
  | nil => rfl
  | cons p m ih =>
    by_cases h : (p.1 == k) = true
    · simpa [mdel, h] using ih
    · simpa [mdel, h, mget_cons] using ih

theorem mget_mdel_ne {α : Type} (m : List (String × α)) (k k' : String)
    (h : k' ≠ k) : mget (mdel m k) k' = mget m k' := by
  induction m with
  | nil => rfl
  | cons p m ih =>
    by_cases hp : (p.1 == k) = true
    · have hpk : p.1 = k := by simpa using hp
      have hne : ¬ ((p.1 == k') = true) := by
        simp only [beq_iff_eq, hpk]
        exact fun hk => h hk.symm
      simp only [mdel, if_pos hp]
      rw [ih, mget_cons, if_neg hne]
    · simp only [mdel, if_neg hp]
      rw [mget_cons, mget_cons, ih]

theorem mget_eq_none_of_not_mem {α : Type} (m : List (String × α)) (k : String)
    (h : ∀ p ∈ m, p.1 ≠ k) : mget m k = none := by
  induction m with
  | nil => rfl
  | cons p m ih =>
    have hp : p.1 ≠ k := h p (List.mem_cons_self p m)
    have : ¬ (p.1 == k) := by simpa using hp
    rw [mget_cons, if_neg this]
    exact ih (fun q hq => h q (List.mem_cons_of_mem p hq))

theorem not_mem_of_mget_eq_none {α : Type} (m : List (String × α)) (k : String)
    (h : mget m k = none) : ∀ p ∈ m, p.1 ≠ k := by
  induction m with
  | nil => intro p hp; cases hp
  | cons q m ih =>
    intro p hp
    rw [mget_cons] at h
    by_cases hq : q.1 == k
    · rw [if_pos hq] at h; cases h
    · rw [if_neg hq] at h
      rcases List.mem_cons.mp hp with h1 | h2
      · subst h1; simpa using hq
      · exact ih h p h2

theorem mem_of_mget_eq_some {α : Type} (m : List (String × α)) (k : String) (v : α)
    (h : mget m k = some v) : (k, v) ∈ m := by
  induction m with
  | nil => cases h
  | cons p m ih =>
    rw [mget_cons] at h
    by_cases hp : p.1 == k
    · rw [if_pos hp] at h
      have hpk : p.1 = k := by simpa using hp
      have hv : p.2 = v := by injection h
      have hpe : (k, v) = p := by
        obtain ⟨a, b⟩ := p
        simp only at hpk hv
        rw [hpk, hv]
      rw [hpe]
      exact List.mem_cons_self p m
    · rw [if_neg hp] at h
      exact List.mem_cons_of_mem p (ih h)

theorem value_unique_of_nodup {α : Type} (m : List (String × α)) (k : String) (v : α)
    (hnd : (m.map Prod.fst).Nodup) (h : mget m k = some v) :
    ∀ p ∈ m, p.1 = k → p.2 = v := by
  induction m with
  | nil => intro p hp; cases hp
  | cons q m ih =>
    intro p hp hpk
    rw [mget_cons] at h
    rw [List.map_cons, List.nodup_cons] at hnd
    by_cases hq : q.1 == k
    · rw [if_pos hq] at h
      have hqk : q.1 = k := by simpa using hq
      have hv : q.2 = v := by injection h
      rcases List.mem_cons.mp hp with h1 | h2
      · rw [h1]; exact hv
      · exfalso
        apply hnd.1
        rw [hqk, ← hpk]
        exact List.mem_map_of_mem Prod.fst h2
    · rw [if_neg hq] at h
      rcases List.mem_cons.mp hp with h1 | h2
      · exfalso
        apply hq
        rw [← h1]
        simpa using hpk
      · exact ih hnd.2 h p h2 hpk

/-!
### Token registry and session store (`index.ts`)

`SessionData` mirrors the `SessionData` interface.  The `OAuth2Client` and
`gmail_v1.Gmail` objects are opaque to this layer and are represented by
numeric identities; `oauth2Client` and `gmail` are `Option` so that the
JavaScript truthiness check in `getSessionData` (`!data.oauth2Client ||
!data.gmail`) is representable.  `tokenCreatedAt` is a millisecond
timestamp (`Date.getTime()`).
-/

structure SessionData where
  oauth2Client : Option Nat
  gmail : Option Nat
  userId : Option String
  sessionToken : Option String
  tokenCreatedAt : Option Nat
  deriving Repr, DecidableEq

/-- The two module-level tables of `index.ts`:
`const sessionStore = new Map<string, SessionData>()` and
`const tokenToSessionMap = new Map<string, string>()`. -/
structure AuthState where
  sessionStore : List (String × SessionData)
  tokenToSessionMap : List (String × String)
  deriving Repr, DecidableEq

/-- `24 * 60 * 60 * 1000` milliseconds, the `maxAge` of `validateSessionToken`. -/
def maxTokenAgeMs : Nat := 24 * 60 * 60 * 1000

/-- `storeSessionData(sessionId, oauth2Client, gmail, userId?)`.  The
cryptographically random output of `generateSessionToken()` and the current
clock `Date.now()` enter the model as the explicit arguments `freshToken`
and `now`.  Returns the updated tables and the token handed to the caller. -/
def storeSessionData (st : AuthState) (sessionId : String)
    (oauth2Client gmail : Nat) (userId : Option String)
    (freshToken : String) (now : Nat) : AuthState × String :=
  let sessionData : SessionData :=
    { oauth2Client := some oauth2Client
      gmail := some gmail
      userId := userId
      sessionToken := some freshToken
      tokenCreatedAt := some now }
  ({ sessionStore := mset st.sessionStore sessionId sessionData
     tokenToSessionMap := mset st.tokenToSessionMap freshToken sessionId },
   freshToken)

/-- `getSessionData(sessionId)`.  Returns the possibly-mutated state (the
function deletes a record whose `oauth2Client` or `gmail` member is falsy,
together with its token mapping) and the retrieved record. -/
def getSessionData (st : AuthState) (sessionId : String) :
    AuthState × Option SessionData :=
  match mget st.sessionStore sessionId with
  | none => (st, none)
  | some data =>
    if data.oauth2Client.isNone || data.gmail.isNone then
      ({ sessionStore := mdel st.sessionStore sessionId
         tokenToSessionMap :=
           match data.sessionToken with
           | some t => mdel st.tokenToSessionMap t
           | none => st.tokenToSessionMap },
       none)
    else
      (st, some data)

/-- `validateSessionToken(token)`.  `now` is `Date.now()`.  The token age is
computed in `Int`, exactly as the JavaScript subtraction
`Date.now() - (sessionData.tokenCreatedAt?.getTime() || 0)` behaves on
millisecond timestamps.  Returns the possibly-mutated tables and the pair
of session id and record on success, `null` on failure. -/
def validateSessionToken (st : AuthState) (token : String) (now : Nat) :
    AuthState × Option (String × SessionData) :=
  match mget st.tokenToSessionMap token with
  | none => (st, none)
  | some sessionId =>
    match mget st.sessionStore sessionId with
    | none => (st, none)
    | some sessionData =>
      if sessionData.sessionToken ≠ some token then
        (st, none)
      else
        let tokenAge : Int :=
          (now : Int) -
            (match sessionData.tokenCreatedAt with
             | some t => (t : Int)
             | none => 0)
        if tokenAge > (maxTokenAgeMs : Int) then
          ({ sessionStore := mdel st.sessionStore sessionId
             tokenToSessionMap := mdel st.tokenToSessionMap token },
           none)
        else
          (st, some (sessionId, sessionData))

/-!
### Session registry (`SessionAwareTransportManager`)

The per-session `Server` instance is modelled by its table of registered
request handlers (`setRequestHandler` calls), which is the only observable
state of the server that the claims concern; the per-session transport is
modelled by the session id it is constructed with.  Handler schemas are
identified by name.
-/

inductive ToolHandler where
  | listToolsHandler
  | callToolHandler
  deriving Repr, DecidableEq

/-- `SessionTransportData`: the record stored in
`SessionAwareTransportManager.sessions`.  `handlers` stands for the
dedicated `mcpServer` (by its registered handler table); `createdAt` and
`lastActivity` are millisecond timestamps of the stored `Date` objects. -/
structure SessionTransportData where
  sessionId : String
  authSessionId : String
  handlers : List (String × ToolHandler)
  createdAt : Nat
  lastActivity : Nat
  requestCount : Nat
  deriving Repr, DecidableEq

structure ManagerState where
  sessions : List (String × SessionTransportData)
  deriving Repr, DecidableEq

/-- Result of `getOrCreateSession`: either the session record together with
the `isNewSession` flag, or the thrown `Invalid session ID` error. -/
inductive SessionResult where
  | ok (sessionData : SessionTransportData) (isNewSession : Bool)
  | invalidSessionError (sessionId : String)
  deriving Repr, DecidableEq

/-- The registration loop of `getOrCreateSession`: starting from a fresh
`Server` (empty handler table), `mcpServer.setRequestHandler(schema,
handler)` for every entry of the `toolHandlers` map. -/
def registerToolHandlers (toolHandlers : List (String × ToolHandler)) :
    List (String × ToolHandler) :=
  toolHandlers.foldl (fun server p => mset server p.1 p.2) []

/-- `getOrCreateSession(sessionId, req, res, isInitializeRequest, ...,
toolHandlers)`.  The output of `randomUUID()` enters the model as the
explicit argument `freshSessionId`; `now` is the clock behind `new Date()`.
When `sessionId` is absent (JavaScript falsy) on an initialization request
a new isolated session is built and registered; when `sessionId` names a
registered session its record is touched and returned; otherwise the
function throws `Invalid session ID`. -/
def getOrCreateSession (st : ManagerState) (sessionId : Option String)
    (isInitializeRequest : Bool) (toolHandlers : List (String × ToolHandler))
    (freshSessionId : String) (now : Nat) : ManagerState × SessionResult :=
  match sessionId, isInitializeRequest with
  | none, true =>
    let newSessionId := freshSessionId
    let authSessionId := "auth-" ++ newSessionId
    let mcpServer := registerToolHandlers toolHandlers
    let sessionData : SessionTransportData :=
      { sessionId := newSessionId
        authSessionId := authSessionId
        handlers := mcpServer
        createdAt := now
        lastActivity := now
        requestCount := 0 }
    ({ sessions := mset st.sessions newSessionId sessionData },
     SessionResult.ok sessionData true)
  | some sid, _ =>
    match mget st.sessions sid with
    | some sessionData =>
      let updated : SessionTransportData :=
        { sessionData with
          lastActivity := now
          requestCount := sessionData.requestCount + 1 }
      ({ sessions := mset st.sessions sid updated },
       SessionResult.ok updated false)
    | none => (st, SessionResult.invalidSessionError sid)
  | none, false => (st, SessionResult.invalidSessionError "undefined")

/-- `closeSession(sessionId)`: closes the transport (no registry effect),
removes the record, and returns whether a record existed. -/
def closeSession (st : ManagerState) (sessionId : String) : ManagerState × Bool :=
  match mget st.sessions sessionId with
  | none => (st, false)
  | some _ => ({ sessions := mdel st.sessions sessionId }, true)

/-- `60 * 60 * 1000` milliseconds, the `maxAge` of `cleanupInactiveSessions`. -/
def maxSessionIdleMs : Nat := 60 * 60 * 1000

/-- The loop body of `cleanupInactiveSessions`: compute
`age = now - sessionData.lastActivity.getTime()` and call `closeSession`
when it exceeds `maxAge`. -/
def cleanupStep (now : Nat) (acc : ManagerState)
    (p : String × SessionTransportData) : ManagerState :=
  let age : Int := (now : Int) - (p.2.lastActivity : Int)
  if age > (maxSessionIdleMs : Int) then (closeSession acc p.1).1 else acc

/-- `cleanupInactiveSessions()`: one sweep tick over the live entries,
calling `closeSession` on every session whose inactivity age exceeds
`maxAge`.  Deleting during `Map` iteration only removes entries, so the
sweep is equivalent to this fold over the entry list at tick start. -/
def cleanupInactiveSessions (st : ManagerState) (now : Nat) : ManagerState :=
  st.sessions.foldl (cleanupStep now) st

structure SessionStat where
  sessionId : String
  authSessionId : String
  requestCount : Nat
  age : Int
  deriving Repr, DecidableEq

/-- `getSessionStats()`: the total count and one summary per session. -/
def getSessionStats (st : ManagerState) (now : Nat) : Nat × List SessionStat :=
  (st.sessions.length,
   st.sessions.map (fun p =>
     { sessionId := p.1
       authSessionId := p.2.authSessionId
       requestCount := p.2.requestCount
       age := (now : Int) - (p.2.createdAt : Int) }))

/-!
### Session-aware transport (`SessionAwareStreamableTransport`)

`handleRequest` and `send` read the ambient `AsyncLocalStorage` request
context; the context (or its absence) at the call is the input of the
model.  The outcome records whether the parent transport emission ran, and
under which ambient context it ran, or whether an error was thrown; the
`console.log`/`console.warn` side channel is elided.
-/

structure RequestContext where
  sessionId : String
  authSessionId : String
  requestId : String
  startTime : Nat
  deriving Repr, DecidableEq

inductive SendOutcome where
  | emitted (ambient : Option RequestContext)
  | errorRaised (message : String)
  deriving Repr, DecidableEq

def SendOutcome.raisesError : SendOutcome → Bool
  | SendOutcome.errorRaised _ => true
  | SendOutcome.emitted _ => false

/-- `SessionAwareStreamableTransport.send(message)`: when a context is
ambient the parent `send` is re-run inside `requestContextStorage.run`
with that exact snapshot; when none is ambient a warning is logged and the
parent `send` is awaited directly, with no ambient context. -/
def transportSend (currentContext : Option RequestContext) : SendOutcome :=
  match currentContext with
  | some ctx => SendOutcome.emitted (some ctx)
  | none => SendOutcome.emitted none

/-- `SessionAwareStreamableTransport.handleRequest(req, res, body)`: throws
when no context is ambient, otherwise re-runs the parent handler inside
the preserved snapshot. -/
def transportHandleRequest (sessionId : String)
    (currentContext : Option RequestContext) : SendOutcome :=
  match currentContext with
  | none =>
    SendOutcome.errorRaised
      ("No request context available for session " ++ sessionId)
  | some ctx => SendOutcome.emitted (some ctx)

/-!
### Tool surface and the CallTool authentication gate (`index.ts`)
-/

/-- The names of the fixed operation set returned by the
`ListToolsRequestSchema` handler, in source order (descriptions and JSON
input schemas are metadata not consulted by any claim). -/
def gmailToolNames : List String :=
  ["send_email", "draft_email", "read_email", "search_emails",
   "modify_email", "delete_email", "list_email_labels",
   "batch_modify_emails", "batch_delete_emails", "create_label",
   "update_label", "delete_label", "get_or_create_label",
   "download_attachment", "get_auth_url", "check_authentication",
   "setup_authentication", "authenticate_with_token"]

/-- The tool list a handler produces when invoked as the discovery
handler: the `ListToolsRequestSchema` handler returns the fixed set, the
invocation handler is not a discovery handler. -/
def ToolHandler.listedTools : ToolHandler → List String
  | ToolHandler.listToolsHandler => gmailToolNames
  | ToolHandler.callToolHandler => []

/-- A discovery (list-tools) call on a session's server: dispatched to the
handler registered under the `ListToolsRequestSchema` key, `none` when no
such handler was registered. -/
def dispatchListTools (server : List (String × ToolHandler)) :
    Option (List String) :=
  (mget server "ListToolsRequestSchema").map ToolHandler.listedTools

/-- Modelled from the spec: the construction of the `toolHandlers` map that
the server bootstrap passes to `getOrCreateSession` is not among the
provided sources (only the registration loop that consumes it is).  Per
spec section 4.2 and the repository's implementation report, it maps the
discovery schema to the discovery handler and the invocation schema to the
invocation handler. -/
def toolHandlers : List (String × ToolHandler) :=
  [("ListToolsRequestSchema", ToolHandler.listToolsHandler),
   ("CallToolRequestSchema", ToolHandler.callToolHandler)]

/-- The four tool names exempted from the authentication gate in the
`CallToolRequestSchema` handler. -/
def authToolNames : List String :=
  ["setup_authentication", "authenticate_with_token", "get_auth_url",
   "check_authentication"]

/-- Outcome of the authentication gate of the `CallToolRequestSchema`
handler.  `proceed` carries the id of the session record whose credentials
the tool execution will use; `invalidTokenError` is the returned message
`Error: Invalid or expired session token ...`; `authRequiredError` is the
returned message `Error: No authentication found for session ...`;
`authToolRequest` records that the gate is skipped for the four
authentication tools. -/
inductive GateOutcome where
  | proceed (credsSessionId : String) (oauth2Client gmail : Nat)
  | invalidTokenError
  | authRequiredError (authSessionId : String)
  | authToolRequest
  deriving Repr, DecidableEq

def GateOutcome.isAuthError : GateOutcome → Bool
  | GateOutcome.invalidTokenError => true
  | GateOutcome.authRequiredError _ => true
  | GateOutcome.proceed _ _ _ => false
  | GateOutcome.authToolRequest => false

/-- `getSessionOAuthClient(sessionId)`: the ambient store's client if set,
else the session store record's client, else `loadCredentials(undefined,
sessionId)`.  The credential files on disk enter the model as the function
`loadCredentials` from session id to an optional client. -/
def getSessionOAuthClient (st : AuthState) (storeOauth2Client : Option Nat)
    (sessionId : String) (loadCredentials : String → Option Nat) :
    AuthState × Option Nat :=
  match storeOauth2Client with
  | some c => (st, some c)
  | none =>
    let res := getSessionData st sessionId
    match res.2 with
    | some data => (res.1, data.oauth2Client)
    | none => (res.1, loadCredentials sessionId)

/-- The auth session id derivation at the top of the handler:
`mcpSessionId = requestContext?.mcpSessionId || 'default'` (the mcp session
id is otherwise only logged) and
`authSessionId = requestContext?.authSessionId || ('auth-' + mcpSessionId)`. -/
def gateAuthSessionId (requestCtx : Option (String × String)) : String :=
  match requestCtx with
  | some rc => rc.2
  | none => "auth-" ++ "default"

/-- The authentication gate of the `CallToolRequestSchema` handler (from
reading the ambient request context and building `initialContext`, through
the token / session / loaded-credential resolution, to the final
`!sessionOauth2Client || !gmailClient` check).  `requestCtx` is the ambient
`requestContextStorage` value (mcp session id and auth session id);
`sessionTokenArg` is `args.sessionToken`; `freshToken` and `now` feed the
`storeSessionData` call on the credential-loading path. -/
def callToolAuthGate (st : AuthState) (requestCtx : Option (String × String))
    (name : String) (sessionTokenArg : Option String)
    (loadCredentials : String → Option Nat)
    (freshToken : String) (now : Nat) : AuthState × GateOutcome :=
  let authSessionId := gateAuthSessionId requestCtx
  let res0 := getSessionData st authSessionId
  let st1 := res0.1
  let storeOauth : Option Nat :=
    match res0.2 with
    | some sd => sd.oauth2Client
    | none => none
  let storeGmail : Option Nat :=
    match res0.2 with
    | some sd => sd.gmail
    | none => none
  if authToolNames.contains name then
    (st1, GateOutcome.authToolRequest)
  else
    match sessionTokenArg with
    | some providedToken =>
      let res1 := validateSessionToken st1 providedToken now
      match res1.2 with
      | some (sid, sessionData) =>
        match sessionData.oauth2Client, sessionData.gmail with
        | some oc, some gc => (res1.1, GateOutcome.proceed sid oc gc)
        | _, _ => (res1.1, GateOutcome.authRequiredError authSessionId)
      | none => (res1.1, GateOutcome.invalidTokenError)
    | none =>
      if storeOauth.isNone || storeGmail.isNone then
        let res2 := getSessionData st1 authSessionId
        match res2.2 with
        | some sessionData =>
          match sessionData.oauth2Client, sessionData.gmail with
          | some oc, some gc => (res2.1, GateOutcome.proceed authSessionId oc gc)
          | _, _ => (res2.1, GateOutcome.authRequiredError authSessionId)
        | none =>
          let res3 := getSessionOAuthClient res2.1 none authSessionId loadCredentials
          match res3.2 with
          | some oc =>
            let res4 := storeSessionData res3.1 authSessionId oc oc none freshToken now
            (res4.1, GateOutcome.proceed authSessionId oc oc)
          | none => (res3.1, GateOutcome.authRequiredError authSessionId)
      else
        match storeOauth, storeGmail with
        | some oc, some gc => (st1, GateOutcome.proceed authSessionId oc gc)
        | _, _ => (st1, GateOutcome.authRequiredError authSessionId)

/-!
### Claim theorems
-/

/-- C8: `closeSession` removes the session's record from the registry and
returns `true` exactly when a record existed; other records are untouched,
and a second close of the same id returns `false` and leaves the registry
in the same state (idempotence). -/
theorem closeSession_spec (st : ManagerState) (sessionId : String) :
    (closeSession st sessionId).2 = (mget st.sessions sessionId).isSome
    ∧ mget (closeSession st sessionId).1.sessions sessionId = none
    ∧ (∀ other : String, other ≠ sessionId →
        mget (closeSession st sessionId).1.sessions other = mget st.sessions other)
    ∧ closeSession (closeSession st sessionId).1 sessionId
        = ((closeSession st sessionId).1, false) := by
  cases h : mget st.sessions sessionId with
  | none =>
    refine ⟨?_, ?_, ?_, ?_⟩
    · simp [closeSession, h]
    · simp [closeSession, h]
    · intro other _
      simp [closeSession, h]
    · simp [closeSession, h]
  | some sd =>
    refine ⟨?_, ?_, ?_, ?_⟩
    · simp [closeSession, h]
    · simp [closeSession, h, mget_mdel_self]
    · intro other hne
      simp [closeSession, h, mget_mdel_ne _ _ _ hne]
    · simp [closeSession, h, mget_mdel_self]

/-- Witness for C8 at a concrete one-session registry. -/
theorem closeSession_spec_witness :
    mget (closeSession
      (ManagerState.mk [("s1",
        { sessionId := "s1", authSessionId := "auth-s1", handlers := []
          createdAt := 0, lastActivity := 0, requestCount := 0 })]) "s1").1.sessions "s2"
      = mget (ManagerState.mk [("s1",
        { sessionId := "s1", authSessionId := "auth-s1", handlers := []
          createdAt := 0, lastActivity := 0, requestCount := 0 })]).sessions "s2" :=
  (closeSession_spec _ "s1").2.2.1 "s2" (by decide)

/-- C3: `getOrCreateSession` creates, registers and returns (marked new) a
fresh session when the id is absent on an initialization request; returns
the existing record with `lastActivity` refreshed and `requestCount`
incremented when the id is present and registered; and fails with the
invalid-session error, leaving the registry unchanged, when the id is
present but unknown or absent on a non-initialization request. -/
theorem getOrCreateSession_spec (st : ManagerState)
    (th : List (String × ToolHandler)) (freshSessionId : String) (now : Nat)
    (sid : String) (isInit : Bool) :
    (mget st.sessions freshSessionId = none →
      ∃ sd : SessionTransportData,
        getOrCreateSession st none true th freshSessionId now
          = (ManagerState.mk (mset st.sessions freshSessionId sd),
             SessionResult.ok sd true)
        ∧ sd.sessionId = freshSessionId
        ∧ sd.requestCount = 0
        ∧ mget (getOrCreateSession st none true th freshSessionId now).1.sessions
            freshSessionId = some sd)
    ∧ (∀ sd : SessionTransportData, mget st.sessions sid = some sd →
        getOrCreateSession st (some sid) isInit th freshSessionId now
          = (ManagerState.mk (mset st.sessions sid
              { sd with lastActivity := now, requestCount := sd.requestCount + 1 }),
             SessionResult.ok
              { sd with lastActivity := now, requestCount := sd.requestCount + 1 }
              false))
    ∧ (mget st.sessions sid = none →
        getOrCreateSession st (some sid) isInit th freshSessionId now
          = (st, SessionResult.invalidSessionError sid))
    ∧ getOrCreateSession st none false th freshSessionId now
        = (st, SessionResult.invalidSessionError "undefined") := by
  refine ⟨?_, ?_, ?_, rfl⟩
  · intro _
    refine ⟨{ sessionId := freshSessionId
              authSessionId := "auth-" ++ freshSessionId
              handlers := registerToolHandlers th
              createdAt := now
              lastActivity := now
              requestCount := 0 }, rfl, rfl, rfl, ?_⟩
    simp only [getOrCreateSession]
    exact mget_mset_self _ _ _
  · intro sd h
    simp only [getOrCreateSession, h]
  · intro h
    simp only [getOrCreateSession, h]

/-- Witness for C3 at concrete inputs: creation on an empty registry,
touch of the created session, and rejection of an unknown id. -/
theorem getOrCreateSession_spec_witness :
    (∃ sd : SessionTransportData,
      getOrCreateSession (ManagerState.mk []) none true toolHandlers "f1" 5
        = (ManagerState.mk (mset [] "f1" sd), SessionResult.ok sd true)
      ∧ sd.sessionId = "f1"
      ∧ sd.requestCount = 0
      ∧ mget (getOrCreateSession (ManagerState.mk []) none true toolHandlers
          "f1" 5).1.sessions "f1" = some sd)
    ∧ getOrCreateSession (ManagerState.mk []) (some "ghost") true toolHandlers
        "f1" 5 = (ManagerState.mk [], SessionResult.invalidSessionError "ghost") :=
  ⟨(getOrCreateSession_spec (ManagerState.mk []) toolHandlers "f1" 5 "ghost"
      true).1 (by decide),
   (getOrCreateSession_spec (ManagerState.mk []) toolHandlers "f1" 5 "ghost"
      true).2.2.1 (by decide)⟩

/-- C6: every newly created session has both the capability-discovery
handler and the invocation handler registered on its dedicated server, so
a discovery call on that session returns the complete fixed operation set
of 18 tools — never an empty list and never a proper subset. -/
theorem newSession_discovery_complete (st : ManagerState)
    (freshSessionId : String) (now : Nat) :
    ∃ sd : SessionTransportData,
      (getOrCreateSession st none true toolHandlers freshSessionId now).2
        = SessionResult.ok sd true
      ∧ mget sd.handlers "ListToolsRequestSchema"
          = some ToolHandler.listToolsHandler
      ∧ mget sd.handlers "CallToolRequestSchema"
          = some ToolHandler.callToolHandler
      ∧ dispatchListTools sd.handlers = some gmailToolNames
      ∧ gmailToolNames ≠ []
      ∧ gmailToolNames.length = 18 := by
  refine ⟨{ sessionId := freshSessionId
            authSessionId := "auth-" ++ freshSessionId
            handlers := registerToolHandlers toolHandlers
            createdAt := now
            lastActivity := now
            requestCount := 0 },
          rfl, ?_, ?_, ?_, by decide, by decide⟩
  · show mget (registerToolHandlers toolHandlers) "ListToolsRequestSchema"
        = some ToolHandler.listToolsHandler
    decide
  · show mget (registerToolHandlers toolHandlers) "CallToolRequestSchema"
        = some ToolHandler.callToolHandler
    decide
  · show dispatchListTools (registerToolHandlers toolHandlers)
        = some gmailToolNames
    decide

/-- C1 counterexample: a `send` at which no ambient request context is
available does not raise an error — the claim says it must — and still
emits the message (by calling the parent transport's `send` directly,
after logging a warning). -/
theorem transportSend_noContext_emits :
    transportSend none = SendOutcome.emitted none
    ∧ (transportSend none).raisesError = false := by
  exact ⟨rfl, rfl⟩

/-- C1 amended: at response-emission time the message is always emitted,
under exactly the ambient context snapshot present at the call (the exact
snapshot is re-applied when one exists, and no default or other tenant's
context is ever substituted); when no context is available the transport
logs a warning and emits with no context rather than raising an error. -/
theorem transportSend_amended (currentContext : Option RequestContext) :
    transportSend currentContext = SendOutcome.emitted currentContext
    ∧ (transportSend currentContext).raisesError = false := by
  cases currentContext with
  | none => exact ⟨rfl, rfl⟩
  | some ctx => exact ⟨rfl, rfl⟩

/-- C9: a token whose age is exactly 24 hours (`now - issuedAt` equal to
`24*60*60*1000` ms) still validates successfully and nothing is deleted,
because the expiry comparison `tokenAge > maxAge` is strict. -/
theorem validateSessionToken_exact_24h (st : AuthState) (token sid : String)
    (sd : SessionData) (t : Nat)
    (h1 : mget st.tokenToSessionMap token = some sid)
    (h2 : mget st.sessionStore sid = some sd)
    (h3 : sd.sessionToken = some token)
    (h4 : sd.tokenCreatedAt = some t) :
    validateSessionToken st token (t + maxTokenAgeMs) = (st, some (sid, sd)) := by
  simp only [validateSessionToken, h1, h2, h3, h4]
  rw [if_neg (by simp)]
  rw [if_neg (by push_cast; omega)]

/-- Witness for C9 at a concrete registry. -/
theorem validateSessionToken_exact_24h_witness :
    validateSessionToken
      (AuthState.mk
        [("s1", { oauth2Client := some 7, gmail := some 8, userId := none
                  sessionToken := some "tk1", tokenCreatedAt := some 100 })]
        [("tk1", "s1")])
      "tk1" (100 + maxTokenAgeMs)
      = (AuthState.mk
          [("s1", { oauth2Client := some 7, gmail := some 8, userId := none
                    sessionToken := some "tk1", tokenCreatedAt := some 100 })]
          [("tk1", "s1")],
         some ("s1",
          { oauth2Client := some 7, gmail := some 8, userId := none
            sessionToken := some "tk1", tokenCreatedAt := some 100 })) :=
  validateSessionToken_exact_24h _ "tk1" "s1" _ 100 (by decide) (by decide)
    (by decide) (by decide)

/-- C10: after a second token is issued for the same session id, the first
token fails validation (the record's stored token no longer equals it),
yet the stale mapping stays in the token table — the mismatch failure
deletes nothing — so membership in the token table does not imply
validity. -/
theorem staleToken_mismatch (st : AuthState) (sid : String)
    (o1 g1 o2 g2 : Nat) (u1 u2 : Option String) (tk1 tk2 : String)
    (t1 t2 now : Nat) (hne : tk1 ≠ tk2) :
    validateSessionToken
        (storeSessionData (storeSessionData st sid o1 g1 u1 tk1 t1).1
          sid o2 g2 u2 tk2 t2).1 tk1 now
      = ((storeSessionData (storeSessionData st sid o1 g1 u1 tk1 t1).1
          sid o2 g2 u2 tk2 t2).1, none)
    ∧ mget (storeSessionData (storeSessionData st sid o1 g1 u1 tk1 t1).1
        sid o2 g2 u2 tk2 t2).1.tokenToSessionMap tk1 = some sid := by
  have hmap : mget (storeSessionData (storeSessionData st sid o1 g1 u1 tk1 t1).1
      sid o2 g2 u2 tk2 t2).1.tokenToSessionMap tk1 = some sid := by
    simp only [storeSessionData]
    rw [mget_mset_ne _ _ _ _ hne, mget_mset_self]
  refine ⟨?_, hmap⟩
  have hstore : mget (storeSessionData (storeSessionData st sid o1 g1 u1 tk1 t1).1
      sid o2 g2 u2 tk2 t2).1.sessionStore sid
      = some { oauth2Client := some o2, gmail := some g2, userId := u2
               sessionToken := some tk2, tokenCreatedAt := some t2 } := by
    simp only [storeSessionData]
    exact mget_mset_self _ _ _
  simp only [validateSessionToken, hmap, hstore]
  rw [if_pos (by simp; exact fun h => absurd h.symm hne)]

/-- Witness for C10 at concrete reissued tokens. -/
theorem staleToken_mismatch_witness :
    validateSessionToken
        (storeSessionData (storeSessionData (AuthState.mk [] []) "s1" 1 2 none
          "tkOld" 10).1 "s1" 3 4 none "tkNew" 20).1 "tkOld" 30
      = ((storeSessionData (storeSessionData (AuthState.mk [] []) "s1" 1 2 none
          "tkOld" 10).1 "s1" 3 4 none "tkNew" 20).1, none)
    ∧ mget (storeSessionData (storeSessionData (AuthState.mk [] []) "s1" 1 2 none
        "tkOld" 10).1 "s1" 3 4 none "tkNew" 20).1.tokenToSessionMap "tkOld"
        = some "s1" :=
  staleToken_mismatch (AuthState.mk [] []) "s1" 1 2 3 4 none none "tkOld"
    "tkNew" 10 20 30 (by decide)

/-- A token absent from the token table fails validation with no state
change, at every clock value. -/
theorem validateSessionToken_absent (st : AuthState) (tk : String) (now : Nat)
    (h : mget st.tokenToSessionMap tk = none) :
    validateSessionToken st tk now = (st, none) := by
  simp only [validateSessionToken, h]

/-- Validation of a just-issued token, characterised for every later
clock value: success with no mutation while the age is within `maxAge`,
deletion of both entries on expiry.  Shared helper for the lifecycle
claims. -/
theorem validateSessionToken_issued (st : AuthState) (sid : String)
    (oc gc : Nat) (u : Option String) (tk : String) (t now : Nat) :
    validateSessionToken (storeSessionData st sid oc gc u tk t).1 tk now
      = if (now : Int) - (t : Int) > (maxTokenAgeMs : Int)
        then (AuthState.mk
            (mdel (storeSessionData st sid oc gc u tk t).1.sessionStore sid)
            (mdel (storeSessionData st sid oc gc u tk t).1.tokenToSessionMap tk),
          none)
        else ((storeSessionData st sid oc gc u tk t).1,
          some (sid,
            { oauth2Client := some oc, gmail := some gc, userId := u
              sessionToken := some tk, tokenCreatedAt := some t })) := by
  have hmap : mget (storeSessionData st sid oc gc u tk t).1.tokenToSessionMap tk
      = some sid := by
    simp only [storeSessionData]
    exact mget_mset_self _ _ _
  have hstore : mget (storeSessionData st sid oc gc u tk t).1.sessionStore sid
      = some { oauth2Client := some oc, gmail := some gc, userId := u
               sessionToken := some tk, tokenCreatedAt := some t } := by
    simp only [storeSessionData]
    exact mget_mset_self _ _ _
  by_cases hexp : (now : Int) - (t : Int) > (maxTokenAgeMs : Int)
  · rw [if_pos hexp]
    simp only [validateSessionToken, hmap, hstore]
    rw [if_neg (by simp)]
    rw [if_pos hexp]
  · rw [if_neg hexp]
    simp only [validateSessionToken, hmap, hstore]
    rw [if_neg (by simp)]
    rw [if_neg hexp]

/-- C5: validating the token returned by issuance for a session succeeds
immediately after issuance and at every time strictly before 24 hours
after issuance (in particular at `issuedAt + 23h59m`); it fails at
`issuedAt + 24h01m`, after which the token table no longer contains the
token, so every retried validation also fails. -/
theorem token_lifecycle (st : AuthState) (sid : String) (oc gc : Nat)
    (u : Option String) (tk : String) (t : Nat) :
    ((validateSessionToken (storeSessionData st sid oc gc u tk t).1 tk t).2).isSome
        = true
    ∧ (∀ now : Nat, now < t + 24 * 60 * 60 * 1000 →
        ((validateSessionToken (storeSessionData st sid oc gc u tk t).1 tk
          now).2).isSome = true)
    ∧ ((validateSessionToken (storeSessionData st sid oc gc u tk t).1 tk
        (t + (23 * 60 + 59) * 60 * 1000)).2).isSome = true
    ∧ (validateSessionToken (storeSessionData st sid oc gc u tk t).1 tk
        (t + 24 * 60 * 60 * 1000 + 60 * 1000)).2 = none
    ∧ mget (validateSessionToken (storeSessionData st sid oc gc u tk t).1 tk
        (t + 24 * 60 * 60 * 1000 + 60 * 1000)).1.tokenToSessionMap tk = none
    ∧ ∀ later : Nat,
        (validateSessionToken
          (validateSessionToken (storeSessionData st sid oc gc u tk t).1 tk
            (t + 24 * 60 * 60 * 1000 + 60 * 1000)).1 tk later).2 = none := by
  have hwin : ∀ now : Nat, now < t + 24 * 60 * 60 * 1000 →
      ((validateSessionToken (storeSessionData st sid oc gc u tk t).1 tk
        now).2).isSome = true := by
    intro now hlt
    have h := validateSessionToken_issued st sid oc gc u tk t now
    rw [if_neg (by simp only [maxTokenAgeMs]; push_cast; omega)] at h
    rw [h]
    rfl
  have h2 := validateSessionToken_issued st sid oc gc u tk t
    (t + 24 * 60 * 60 * 1000 + 60 * 1000)
  rw [if_pos (by simp only [maxTokenAgeMs]; push_cast; omega)] at h2
  have hgone : mget (validateSessionToken (storeSessionData st sid oc gc u tk t).1
      tk (t + 24 * 60 * 60 * 1000 + 60 * 1000)).1.tokenToSessionMap tk = none := by
    rw [h2]
    exact mget_mdel_self _ _
  refine ⟨hwin t (by omega), hwin,
    hwin (t + (23 * 60 + 59) * 60 * 1000) (by omega),
    by rw [h2], hgone, ?_⟩
  intro later
  rw [validateSessionToken_absent _ tk later hgone]

/-- Witness for C5: a token issued at millisecond 1000 still validates at
millisecond 500000, a time strictly inside the 24-hour window. -/
theorem token_lifecycle_witness :
    ((validateSessionToken (storeSessionData (AuthState.mk [] []) "s1" 1 2 none
        "tk" 1000).1 "tk" 500000).2).isSome = true :=
  (token_lifecycle (AuthState.mk [] []) "s1" 1 2 none "tk" 1000).2.1 500000
    (by decide)

/-- C2 counterexample: (i) a validation failure by stored-token mismatch
after which both registries are unchanged and the token is still a key of
the token table, although the claim requires the mapping and record to be
deleted on every failure; (ii) a validation success at age exactly
24 hours, although the claim requires age strictly below 24 hours. -/
theorem validateSessionToken_claim_cex :
    (validateSessionToken
        (AuthState.mk
          [("s", { oauth2Client := some 1, gmail := some 2, userId := none
                   sessionToken := some "tokB", tokenCreatedAt := some 0 })]
          [("tokA", "s")]) "tokA" 5
      = (AuthState.mk
          [("s", { oauth2Client := some 1, gmail := some 2, userId := none
                   sessionToken := some "tokB", tokenCreatedAt := some 0 })]
          [("tokA", "s")], none))
    ∧ ((validateSessionToken
        (AuthState.mk
          [("s", { oauth2Client := some 1, gmail := some 2, userId := none
                   sessionToken := some "tokC", tokenCreatedAt := some 0 })]
          [("tokC", "s")]) "tokC" maxTokenAgeMs).2).isSome = true := by
  exact ⟨by decide, by decide⟩

/-- C2 amended: a presented token validates successfully exactly when it
is a key of the token table, the session record it maps to exists with
stored token equal to the presented token, and the token age is at most
24 hours (inclusive bound); the deletion of the token mapping and the
session record happens only on the age-expiry failure, while lookup-miss
and stored-token-mismatch failures return not-ok with both registries
unchanged. -/
theorem validateSessionToken_characterization (st : AuthState)
    (token : String) (now : Nat) :
    (mget st.tokenToSessionMap token = none →
      validateSessionToken st token now = (st, none))
    ∧ (∀ sid, mget st.tokenToSessionMap token = some sid →
        mget st.sessionStore sid = none →
        validateSessionToken st token now = (st, none))
    ∧ (∀ sid sd, mget st.tokenToSessionMap token = some sid →
        mget st.sessionStore sid = some sd →
        sd.sessionToken ≠ some token →
        validateSessionToken st token now = (st, none))
    ∧ (∀ sid sd t, mget st.tokenToSessionMap token = some sid →
        mget st.sessionStore sid = some sd →
        sd.sessionToken = some token →
        sd.tokenCreatedAt = some t →
        ((now : Int) - (t : Int) > (maxTokenAgeMs : Int) →
          validateSessionToken st token now
            = (AuthState.mk (mdel st.sessionStore sid)
                (mdel st.tokenToSessionMap token), none))
        ∧ ((now : Int) - (t : Int) ≤ (maxTokenAgeMs : Int) →
          validateSessionToken st token now = (st, some (sid, sd)))) := by
  refine ⟨?_, ?_, ?_, ?_⟩
  · intro h
    simp only [validateSessionToken, h]
  · intro sid h1 h2
    simp only [validateSessionToken, h1, h2]
  · intro sid sd h1 h2 h3
    simp only [validateSessionToken, h1, h2]
    rw [if_pos h3]
  · intro sid sd t h1 h2 h3 h4
    constructor
    · intro hexp
      simp only [validateSessionToken, h1, h2, h3, h4]
      rw [if_neg (by simp)]
      rw [if_pos hexp]
    · intro hle
      simp only [validateSessionToken, h1, h2, h3, h4]
      rw [if_neg (by simp)]
      rw [if_neg (by omega)]

/-- Witness for the C2 characterization: an unknown token fails with both
registries unchanged, and an over-age token fails with both entries
deleted. -/
theorem validateSessionToken_characterization_witness :
    validateSessionToken (AuthState.mk [] []) "nope" 0
      = (AuthState.mk [] [], none)
    ∧ validateSessionToken
        (AuthState.mk
          [("s", { oauth2Client := some 1, gmail := some 2, userId := none
                   sessionToken := some "tokE", tokenCreatedAt := some 0 })]
          [("tokE", "s")]) "tokE" (maxTokenAgeMs + 1)
      = (AuthState.mk
          (mdel [("s", { oauth2Client := some 1, gmail := some 2, userId := none
                         sessionToken := some "tokE", tokenCreatedAt := some 0 })] "s")
          (mdel [("tokE", "s")] "tokE"), none) :=
  ⟨(validateSessionToken_characterization (AuthState.mk [] []) "nope" 0).1
      (by decide),
   ((validateSessionToken_characterization _ "tokE" (maxTokenAgeMs + 1)).2.2.2
      "s"
      { oauth2Client := some 1, gmail := some 2, userId := none
        sessionToken := some "tokE", tokenCreatedAt := some 0 }
      0 (by decide) (by decide) (by decide) (by decide)).1 (by decide)⟩

theorem mget_closeSession_self (acc : ManagerState) (k : String) :
    mget (closeSession acc k).1.sessions k = none := by
  cases h : mget acc.sessions k with
  | none => simp [closeSession, h]
  | some sd => simp [closeSession, h, mget_mdel_self]

theorem mget_closeSession_ne (acc : ManagerState) (k sid : String)
    (h : sid ≠ k) :
    mget (closeSession acc k).1.sessions sid = mget acc.sessions sid := by
  cases hk : mget acc.sessions k with
  | none => simp [closeSession, hk]
  | some sd => simp [closeSession, hk, mget_mdel_ne _ _ _ h]

/-- Pointwise effect of one sweep pass: a session id is gone afterwards
exactly when some processed entry carries that id and an expired age;
otherwise its lookup is untouched. -/
theorem mget_foldl_cleanupStep (now : Nat) (sid : String) :
    ∀ (l : List (String × SessionTransportData)) (acc : ManagerState),
    mget (l.foldl (cleanupStep now) acc).sessions sid
      = if l.any (fun q => q.1 == sid &&
            decide ((now : Int) - (q.2.lastActivity : Int)
              > (maxSessionIdleMs : Int)))
        then none
        else mget acc.sessions sid := by
  intro l
  induction l with
  | nil => intro acc; simp
  | cons p l ih =>
    intro acc
    rw [List.foldl_cons, List.any_cons, ih]
    by_cases hl : (l.any fun q => q.1 == sid &&
        decide ((now : Int) - (q.2.lastActivity : Int)
          > (maxSessionIdleMs : Int))) = true
    · simp [hl]
    · rw [Bool.not_eq_true] at hl
      by_cases hexp : (now : Int) - (p.2.lastActivity : Int)
          > (maxSessionIdleMs : Int)
      · by_cases hp : p.1 = sid
        · have hclose : mget (cleanupStep now acc p).sessions sid = none := by
            simp only [cleanupStep]
            rw [if_pos hexp, ← hp]
            exact mget_closeSession_self acc p.1
          simp [hl, hclose, hp, hexp]
        · have hclose : mget (cleanupStep now acc p).sessions sid
              = mget acc.sessions sid := by
            simp only [cleanupStep]
            rw [if_pos hexp]
            exact mget_closeSession_ne acc p.1 sid (fun hh => hp hh.symm)
          have hb : (p.1 == sid) = false := by simp [hp]
          simp [hl, hclose, hb]
      · have hstep : cleanupStep now acc p = acc := by
          simp only [cleanupStep]
          rw [if_neg hexp]
        have hb : decide ((now : Int) - (p.2.lastActivity : Int)
            > (maxSessionIdleMs : Int)) = false := by
          simp [hexp]
        simp [hl, hstep, hb]

/-- The stats listing names a session id exactly when the registry holds an
entry under that id. -/
theorem stats_contains_iff (st : ManagerState) (now : Nat) (sid : String) :
    ((getSessionStats st now).2.any (fun s => s.sessionId == sid))
      = (st.sessions.any (fun p => p.1 == sid)) := by
  simp only [getSessionStats]
  induction st.sessions with
  | nil => rfl
  | cons p l ih =>
    rw [List.map_cons, List.any_cons, List.any_cons, ih]

/-- C7: after one tick of the idle sweeper, a session whose inactivity
exceeds the one-hour threshold is absent from the stats listing, and a
session whose inactivity is below the threshold is still present.
`hnd` records that the registry is a `Map` (one entry per key). -/
theorem cleanup_stats (st : ManagerState) (now : Nat) (sid : String)
    (sd : SessionTransportData)
    (hnd : (st.sessions.map Prod.fst).Nodup)
    (hget : mget st.sessions sid = some sd) :
    ((now : Int) - (sd.lastActivity : Int) > (maxSessionIdleMs : Int) →
      ((getSessionStats (cleanupInactiveSessions st now) now).2.any
        (fun s => s.sessionId == sid)) = false)
    ∧ ((now : Int) - (sd.lastActivity : Int) < (maxSessionIdleMs : Int) →
      ((getSessionStats (cleanupInactiveSessions st now) now).2.any
        (fun s => s.sessionId == sid)) = true) := by
  constructor
  · intro hexp
    have hany : (st.sessions.any fun q => q.1 == sid &&
        decide ((now : Int) - (q.2.lastActivity : Int)
          > (maxSessionIdleMs : Int))) = true := by
      rw [List.any_eq_true]
      exact ⟨(sid, sd), mem_of_mget_eq_some _ _ _ hget, by simp [hexp]⟩
    have hnone : mget (cleanupInactiveSessions st now).sessions sid = none := by
      simp only [cleanupInactiveSessions]
      rw [mget_foldl_cleanupStep now sid st.sessions st]
      simp [hany]
    rw [stats_contains_iff, List.any_eq_false]
    intro p hp
    simpa using not_mem_of_mget_eq_none _ _ hnone p hp
  · intro hfresh
    have hany : (st.sessions.any fun q => q.1 == sid &&
        decide ((now : Int) - (q.2.lastActivity : Int)
          > (maxSessionIdleMs : Int))) = false := by
      rw [List.any_eq_false]
      intro q hq
      simp only [Bool.and_eq_true, beq_iff_eq, decide_eq_true_eq, not_and]
      intro hqk hqexp
      have hqv := value_unique_of_nodup st.sessions sid sd hnd hget q hq hqk
      rw [hqv] at hqexp
      omega
    have hsame : mget (cleanupInactiveSessions st now).sessions sid = some sd := by
      simp only [cleanupInactiveSessions]
      rw [mget_foldl_cleanupStep now sid st.sessions st]
      simp [hany, hget]
    rw [stats_contains_iff, List.any_eq_true]
    exact ⟨(sid, sd), mem_of_mget_eq_some _ _ _ hsame, by simp⟩

/-- Witness for C7: with the threshold at one hour (3600000 ms), a session
idle for 4000000 ms is swept, a session idle for 100000 ms survives. -/
theorem cleanup_stats_witness :
    ((getSessionStats (cleanupInactiveSessions
      (ManagerState.mk
        [("old", { sessionId := "old", authSessionId := "auth-old"
                   handlers := [], createdAt := 0, lastActivity := 0
                   requestCount := 1 }),
         ("new", { sessionId := "new", authSessionId := "auth-new"
                   handlers := [], createdAt := 0, lastActivity := 3900000
                   requestCount := 2 })]) 4000000) 4000000).2.any
      (fun s => s.sessionId == "old")) = false
    ∧ ((getSessionStats (cleanupInactiveSessions
      (ManagerState.mk
        [("old", { sessionId := "old", authSessionId := "auth-old"
                   handlers := [], createdAt := 0, lastActivity := 0
                   requestCount := 1 }),
         ("new", { sessionId := "new", authSessionId := "auth-new"
                   handlers := [], createdAt := 0, lastActivity := 3900000
                   requestCount := 2 })]) 4000000) 4000000).2.any
      (fun s => s.sessionId == "new")) = true :=
  ⟨(cleanup_stats _ 4000000 "old"
      { sessionId := "old", authSessionId := "auth-old"
        handlers := [], createdAt := 0, lastActivity := 0
        requestCount := 1 } (by decide) (by decide)).1 (by decide),
   (cleanup_stats _ 4000000 "new"
      { sessionId := "new", authSessionId := "auth-new"
        handlers := [], createdAt := 0, lastActivity := 3900000
        requestCount := 2 } (by decide) (by decide)).2 (by decide)⟩

/-- C4: a non-authentication tool invocation whose session has no stored
credential record, no loadable credentials, and no valid token is answered
with an explicit authentication error — the invalid-token message when a
token was presented, the authentication-required message otherwise — and
in particular never proceeds into tool execution with any session's
credentials. -/
theorem callToolAuthGate_rejects_unauthenticated (st : AuthState)
    (requestCtx : Option (String × String)) (name : String)
    (sessionTokenArg : Option String) (loadCredentials : String → Option Nat)
    (freshToken : String) (now : Nat)
    (hname : authToolNames.contains name = false)
    (hsession : mget st.sessionStore (gateAuthSessionId requestCtx) = none)
    (hload : loadCredentials (gateAuthSessionId requestCtx) = none)
    (htok : ∀ tk, sessionTokenArg = some tk →
      (validateSessionToken st tk now).2 = none) :
    ((callToolAuthGate st requestCtx name sessionTokenArg loadCredentials
        freshToken now).2).isAuthError = true
    ∧ (sessionTokenArg = none →
        (callToolAuthGate st requestCtx name sessionTokenArg loadCredentials
          freshToken now).2
          = GateOutcome.authRequiredError (gateAuthSessionId requestCtx)) := by
  have hgd : getSessionData st (gateAuthSessionId requestCtx) = (st, none) := by
    simp only [getSessionData, hsession]
  have hnotmem : name ∉ authToolNames := by simpa using hname
  cases sessionTokenArg with
  | none =>
    have hgate : (callToolAuthGate st requestCtx name none loadCredentials
        freshToken now).2
        = GateOutcome.authRequiredError (gateAuthSessionId requestCtx) := by
      simp [callToolAuthGate, getSessionOAuthClient, hgd, hname, hload]
      rw [if_neg hnotmem]
    exact ⟨by rw [hgate]; rfl, fun _ => hgate⟩
  | some tk =>
    have hv : (validateSessionToken st tk now).2 = none := htok tk rfl
    have hgate : (callToolAuthGate st requestCtx name (some tk) loadCredentials
        freshToken now).2 = GateOutcome.invalidTokenError := by
      simp [callToolAuthGate, hgd, hname, hv]
      rw [if_neg hnotmem]
    refine ⟨by rw [hgate]; rfl, fun h => by cases h⟩

/-- Witness for C4: an empty registry, no ambient context, no token and no
loadable credentials make a `send_email` invocation fail with the
authentication-required error. -/
theorem callToolAuthGate_rejects_unauthenticated_witness :
    ((callToolAuthGate (AuthState.mk [] []) none "send_email" none
        (fun _ => none) "freshTok" 0).2).isAuthError = true
    ∧ (callToolAuthGate (AuthState.mk [] []) none "send_email" none
        (fun _ => none) "freshTok" 0).2
        = GateOutcome.authRequiredError (gateAuthSessionId none) :=
  have h := callToolAuthGate_rejects_unauthenticated (AuthState.mk [] []) none
    "send_email" none (fun _ => none) "freshTok" 0 (by decide) (by decide) rfl
    (fun tk htk => by cases htk)
  ⟨h.1, h.2 rfl⟩

end GmailMcp
